import Mathlib

/-!
Verification development for the standalone-deploy orchestrator
(tripleoclient/v1/tripleo_deploy.py, class Deploy).

The Python source is shallowly embedded: Python dicts become functions
String -> Option String (only get/set/update/membership are used by the
code under study), file contents and exit codes become explicit inputs,
and the try/except/finally control flow of Deploy._standalone_deploy
becomes an explicit step function producing a result, the final marker
state and an ordered trace of externally visible events.
-/

namespace TripleoDeploy

/-- Python dict with string keys and string values, modelled by its
lookup function (the embedded code only reads, writes and merges). -/
def PwDict : Type := String → Option String

/-- Setting a single key of a dict: d[k] = v. -/
def dictUpd (d : PwDict) (k v : String) : PwDict :=
  fun q => if q = k then some v else d q

/-- Python d.update(e): keys of e win, remaining keys keep d's value. -/
def pyUpdate (d e : PwDict) : PwDict :=
  fun k => (e k).orElse (fun _ => d k)

/-- Lookup of a key in an ordered key/value list (configparser items:
unique keys, file order). -/
def getKey (items : List (String × String)) (k : String) : Option String :=
  (items.find? (fun kv => kv.1 = k)).map Prod.snd

/-- Python membership test for the parsed [auth] section, as used by
config.get('auth', 'undercloud_rpc_password') succeeding or raising. -/
def hasKey (items : List (String × String)) (k : String) : Bool :=
  items.any (fun kv => kv.1 = k)

/-- Python str.split(sep) for a single-character separator, on the
character list of the string. -/
def splitChar (sep : Char) : List Char → List (List Char)
  | [] => [[]]
  | c :: rest =>
    match splitChar sep rest with
    | [] => [[]]
    | h :: t => if c = sep then [] :: h :: t else (c :: h) :: t

/-- Python str.capitalize(): first character uppercased, the rest
lowercased. -/
def pythonCapitalize : List Char → List Char
  | [] => []
  | c :: rest => c.toUpper :: rest.map Char.toLower

/-- Generic legacy key rename in Deploy._update_passwords_env
(tripleo_deploy.py line 267):
k = ''.join(i.capitalize() for i in k.split('_')[1:]). -/
def genericTranslate (k : String) : String :=
  String.mk (List.flatten (((splitChar '_' k.data).drop 1).map pythonCapitalize))

/-- One iteration of the legacy translation loop of
Deploy._update_passwords_env (tripleo_deploy.py lines 240-268).
hasRpc is the outcome of config.get('auth', 'undercloud_rpc_password'),
which consults the whole parsed legacy file, and legacy_env[k] = v runs
after the rename chain in every branch. -/
def translateStep (hasRpc : Bool) (acc : PwDict) (kv : String × String) : PwDict :=
  let k := kv.1
  let v := kv.2
  if k = "undercloud_db_password" then dictUpd acc "MysqlRootPassword" v
  else if k = "undercloud_rabbit_username" then dictUpd acc "RpcUserName" v
  else if k = "undercloud_rabbit_password" then
    let acc' := if hasRpc then acc else dictUpd acc "RpcPassword" v
    dictUpd acc' "RabbitPassword" v
  else if k = "undercloud_rabbit_cookie" then dictUpd acc "RabbitCookie" v
  else if k = "undercloud_heat_encryption_key" then dictUpd acc "HeatAuthEncryptionKey" v
  else if k = "undercloud_libvirt_tls_password" then dictUpd acc "LibvirtTLSPassword" v
  else if k = "undercloud_ha_proxy_stats_password" then dictUpd acc "HAProxyStatsPassword" v
  else dictUpd acc (genericTranslate k) v

/-- The legacy_env dict built by Deploy._update_passwords_env from the
items of the [auth] section of undercloud-passwords.conf
(tripleo_deploy.py lines 236-268). -/
def translateAuthItems (items : List (String × String)) : PwDict :=
  items.foldl (translateStep (hasKey items "undercloud_rpc_password")) (fun _ => none)

/-- Modelled from the spec: tripleo_common.utils.passwords.generate_passwords
is an external collaborator (not under src); per spec section 4.1 freshly
generated values fill any still-unset key and values already present are
never regenerated, so the candidate set maps each password name to the
existing structured value when present and to a fresh value otherwise. -/
def generate_passwords (stack_env : PwDict) (names : List String)
    (fresh : String → String) : PwDict :=
  fun k => if names.contains k then some ((stack_env k).getD (fresh k)) else none

/-- The parameter_defaults merge performed by Deploy._update_passwords_env
(tripleo_deploy.py lines 270-285): start from the structured store
(tripleo-undercloud-passwords.yaml), update with the generated candidate
set, update with the translated legacy dict, then fill caller-supplied
default passwords only for keys not already present. -/
def update_passwords_merge (stack_env : PwDict) (auth_items : List (String × String))
    (names : List String) (fresh : String → String) (passwords : PwDict) : PwDict :=
  let legacy_env := translateAuthItems auth_items
  let pw := generate_passwords stack_env names fresh
  let afterGen := pyUpdate stack_env pw
  let afterLegacy := pyUpdate afterGen legacy_env
  fun p =>
    match afterLegacy p with
    | some v => some v
    | none => passwords p

/-- The terminal-status acceptance test of Deploy._standalone_deploy
(tripleo_deploy.py lines 940-945). stack_action is the ambient
self.stack_action, in scope but never consulted by the test. -/
def stackStatusCheck (stack_action status msg : String) : Except String Unit :=
  if status ≠ "CREATE_COMPLETE" then
    Except.error ("Stack create failed; " ++ msg)
  else
    Except.ok ()

/-- Python str.startswith, on character lists. -/
def charsStartWith : List Char → List Char → Bool
  | _, [] => true
  | [], _ :: _ => false
  | c :: s, p :: ps => c = p && charsStartWith s ps

/-- Python str.startswith. -/
def pyStartsWith (s pre : String) : Bool :=
  charsStartWith s.data pre.data

/-- Python str.endswith. -/
def pyEndsWith (s post : String) : Bool :=
  charsStartWith s.data.reverse post.data.reverse

/-- Python substring membership (sub in s), on character lists. -/
def charsContains (s sub : List Char) : Bool :=
  charsStartWith s sub ||
    match s with
    | [] => false
    | _ :: t => charsContains t sub

/-- Python substring membership: sub in s. -/
def strIn (sub s : String) : Bool :=
  charsContains s.data sub.data

/-- Python str.replace on character lists: non-overlapping left-to-right
replacement of every occurrence of pat by rep. The fuel argument (one
unit per character of s, never exhausted first since pat is nonempty at
every use site) makes the recursion structural. -/
def charsReplaceFuel (pat rep : List Char) : Nat → List Char → List Char
  | _, [] => []
  | 0, s => s
  | Nat.succ n, c :: t =>
    if pat ≠ [] ∧ charsStartWith (c :: t) pat = true then
      rep ++ charsReplaceFuel pat rep n (List.drop (pat.length - 1) t)
    else
      c :: charsReplaceFuel pat rep n t

/-- Python str.replace: s.replace(pat, rep). -/
def pyReplace (s pat rep : String) : String :=
  String.mk (charsReplaceFuel pat.data rep.data s.data.length s.data)

/-- Python os.path.join for the two-argument cases used here. -/
def joinPath (a b : String) : String :=
  if pyStartsWith b "/" then b
  else if a = "" ∨ pyEndsWith a "/" then a ++ b
  else a ++ "/" ++ b

/-- Python os.path.basename: the component after the last slash. -/
def basename (p : String) : String :=
  String.mk ((splitChar '/' p.data).getLastD [])

/-- Ambient path facts supplied by the operating system: os.path.abspath
(depends on the current working directory) and os.path.exists (depends
on the on-disk state when _normalize_user_templates runs). -/
structure PathCfg where
  abspath : String → String
  pathExists : String → Bool

/-- The three ways Deploy._normalize_user_templates resolves one
caller-supplied environment file (tripleo_deploy.py lines 441-470). -/
inductive Resolution
  | remapped (p : String)
  | passthrough (p : String)
  | copied (p : String)
deriving DecidableEq, Repr

/-- The path appended to the environments list for a resolution. -/
def resolutionPath : Resolution → String
  | .remapped p => p
  | .passthrough p => p
  | .copied p => p

/-- The guard of the first branch of Deploy._normalize_user_templates
(tripleo_deploy.py lines 444-448), with user_tht = abspath(user_tht_root)
and abs_env_path = abspath(env_path). -/
def condRemap (user_tht_root user_tht env_path abs_env_path : String) : Bool :=
  pyStartsWith abs_env_path user_tht_root &&
    (strIn (user_tht ++ "/") env_path ||
     strIn (user_tht ++ "/") abs_env_path ||
     user_tht == abs_env_path ||
     user_tht == env_path)

/-- Copy destination used by the third branch (tripleo_deploy.py
line 462): os.path.join(tht_root, os.path.basename(abs_env_path)). -/
def targetDest (tht_root abs_env_path : String) : String :=
  joinPath tht_root (basename abs_env_path)

/-- Resolution of a single environment file by
Deploy._normalize_user_templates (tripleo_deploy.py lines 441-470):
remap paths under the user template root into tht_root, pass through
paths already under tht_root, otherwise copy the file into tht_root,
raising DeploymentError if the destination already exists. -/
def normalizeOne (cfg : PathCfg) (user_tht_root tht_root env_path : String) :
    Except String Resolution :=
  let user_tht := cfg.abspath user_tht_root
  let abs_env_path := cfg.abspath env_path
  if condRemap user_tht_root user_tht env_path abs_env_path then
    Except.ok (.remapped (pyReplace env_path (user_tht ++ "/") (tht_root ++ "/")))
  else if pyStartsWith abs_env_path tht_root then
    Except.ok (.passthrough abs_env_path)
  else
    let target_dest := targetDest tht_root abs_env_path
    if cfg.pathExists target_dest then
      Except.error (target_dest ++
        " already exists, please rename the file to something else")
    else
      Except.ok (.copied target_dest)

/-- Deploy._normalize_user_templates over the whole env_files list:
the loop appends one resolved path per input file and aborts on the
first DeploymentError. -/
def normalize_user_templates (cfg : PathCfg) (user_tht_root tht_root : String) :
    List String → Except String (List String)
  | [] => Except.ok []
  | env_path :: rest =>
    match normalizeOne cfg user_tht_root tht_root env_path with
    | Except.error m => Except.error m
    | Except.ok r =>
      match normalize_user_templates cfg user_tht_root tht_root rest with
      | Except.error m => Except.error m
      | Except.ok rs => Except.ok (resolutionPath r :: rs)

/-- The system-generated portion of the environment list built by
Deploy._setup_heat_environments (tripleo_deploy.py lines 513-582):
plan environments, the password file, the two deployed-server
environments, the hosts/portmap file, the optional processed hieradata
override, and the stack-vstate drop-in, in source order.
plan_envs stands for the already-resolved environment paths read from
plan-environment.yaml and hiera_processed for the return value of
_process_hieradata_overrides, both abstracted as inputs. -/
def systemEnvironments (tht_render output_dir : String) (plan_envs : List String)
    (hieradata_override : Option String) (hiera_processed stack : String) :
    List String :=
  let environments := plan_envs
  let pw_file := joinPath output_dir "tripleo-undercloud-passwords.yaml"
  let environments := environments ++ [pw_file]
  let environments := environments ++
    [joinPath (joinPath tht_render "environments") "config-download-environment.yaml"]
  let environments := environments ++
    [joinPath (joinPath tht_render "environments") "deployed-server-noop-ctlplane.yaml"]
  let maps_file := joinPath tht_render "tripleoclient-hosts-portmaps.yaml"
  let environments := environments ++ [maps_file]
  let environments :=
    match hieradata_override with
    | some _ => environments ++ [hiera_processed]
    | none => environments
  let stack_vstate_dropin := joinPath tht_render (stack ++ "-stack-vstate-dropin.yaml")
  environments ++ [stack_vstate_dropin]

/-- Deploy._setup_heat_environments (tripleo_deploy.py lines 473-584):
normalize the caller environment files into the working tree, run the
external template preprocessor (its exit code is an input), assemble the
system-generated environments, and return them followed by the caller's
normalized environments. -/
def setup_heat_environments (cfg : PathCfg) (templates tht_render output_dir : String)
    (environment_files : List String) (preprocRc : Nat) (plan_envs : List String)
    (hieradata_override : Option String) (hiera_processed stack : String) :
    Except String (List String) :=
  match normalize_user_templates cfg templates tht_render environment_files with
  | Except.error m => Except.error m
  | Except.ok user_environments =>
    if preprocRc ≠ 0 then
      Except.error "Problems generating templates."
    else
      Except.ok
        (systemEnvironments tht_render output_dir plan_envs hieradata_override
          hiera_processed stack ++ user_environments)

/-! ## The _standalone_deploy run model -/

/-- The parsed arguments consulted by the modelled part of
Deploy._standalone_deploy. -/
structure Args where
  force_stack_update : Bool
  output_only : Bool
  upgrade : Bool
  cleanup : Bool

/-- The environment of one run: the prior marker state and the outcomes
of the external operations (heat launch / template deploy exceptions,
the polled terminal status and message, the two ansible exit codes, and
whether creating the artifact tarball raises). -/
structure RunEnv where
  initMark : Bool
  heatFail : Option String
  pollStatus : String
  pollMsg : String
  upgradeRc : Nat
  deployRc : Nat
  archiveFail : Option String

/-- Externally visible events of one run, in occurrence order. -/
inductive Ev
  | upgradePhase
  | deployPhase
  | archive
  | deleteDirs
  | removeMark
  | writeMark
  | successBanner
  | failBanner
deriving DecidableEq, Repr

/-- The stack action chosen at tripleo_deploy.py lines 922-924: UPDATE
when the marker file exists or --force-stack-update was given, CREATE
otherwise. -/
def stackAction (a : Args) (e : RunEnv) : String :=
  if e.initMark || a.force_stack_update then "UPDATE" else "CREATE"

/-- Outcome of the try block: the rc variable's final value, the
in-flight exception message if one was raised, and the phase events. -/
structure BodyOut where
  rc : Nat
  exc : Option String
  trace : List Ev

/-- The try block of Deploy._standalone_deploy (tripleo_deploy.py lines
912-960): rc starts at 1; heat launch / template submission may raise;
the polled status must pass stackStatusCheck; unless --output-only,
the upgrade phase (when requested) must exit zero before the deploy
phase runs and rc is assigned only by those two phases. -/
def tryBody (a : Args) (e : RunEnv) : BodyOut :=
  match e.heatFail with
  | some m => { rc := 1, exc := some m, trace := [] }
  | none =>
    match stackStatusCheck (stackAction a e) e.pollStatus e.pollMsg with
    | Except.error m => { rc := 1, exc := some m, trace := [] }
    | Except.ok _ =>
      if a.output_only then { rc := 1, exc := none, trace := [] }
      else if a.upgrade then
        if e.upgradeRc ≠ 0 then
          { rc := e.upgradeRc, exc := some "Upgrade failed", trace := [.upgradePhase] }
        else
          { rc := e.deployRc, exc := none, trace := [.upgradePhase, .deployPhase] }
      else
        { rc := e.deployRc, exc := none, trace := [.deployPhase] }

/-- Final state of one run: the value returned by (or the exception
escaping) _standalone_deploy, the final marker presence, and the event
trace. -/
structure FinalState where
  result : Except String Nat
  markerFinal : Bool
  trace : List Ev

/-- The finally block of Deploy._standalone_deploy (tripleo_deploy.py
lines 964-1019). _create_install_artifact re-raises a DeploymentError
on archive failure, which replaces any in-flight exception and aborts
the rest of the block; otherwise the working dirs are deleted when
--cleanup was given, then either the failure branch (non-output-only,
rc nonzero: remove the marker unless forced, log the failure banner,
raise DeploymentError) or the completion branch (success banner, write
the marker when not output-only or forced, return rc — a return in a
finally block swallows any in-flight exception). -/
def finallyBlock (a : Args) (e : RunEnv) (b : BodyOut) : FinalState :=
  match e.archiveFail with
  | some m =>
    { result := Except.error ("Unable to create artifact tarball, " ++ m),
      markerFinal := e.initMark,
      trace := b.trace }
  | none =>
    let t1 := b.trace ++ [.archive]
    let t2 := if a.cleanup then t1 ++ [.deleteDirs] else t1
    if a.output_only = false ∧ b.rc ≠ 0 then
      if a.force_stack_update = false ∧ e.initMark then
        { result := Except.error "Deployment failed.",
          markerFinal := false,
          trace := t2 ++ [.removeMark, .failBanner] }
      else
        { result := Except.error "Deployment failed.",
          markerFinal := e.initMark,
          trace := t2 ++ [.failBanner] }
    else
      if a.output_only = false ∨ a.force_stack_update then
        { result := Except.ok b.rc,
          markerFinal := true,
          trace := t2 ++ [.successBanner, .writeMark] }
      else
        { result := Except.ok b.rc,
          markerFinal := e.initMark,
          trace := t2 ++ [.successBanner] }

/-- One run of Deploy._standalone_deploy, from the start of its try
block (tripleo_deploy.py lines 912-1019). -/
def runStandaloneDeploy (a : Args) (e : RunEnv) : FinalState :=
  finallyBlock a e (tryBody a e)

/-- Deploy.take_action on the standalone path (tripleo_deploy.py lines
1045-1049): a nonzero return from _standalone_deploy raises
DeploymentError('Deployment failed.'). -/
def takeAction (a : Args) (e : RunEnv) : Except String Nat :=
  match (runStandaloneDeploy a e).result with
  | Except.error m => Except.error m
  | Except.ok rc => if rc ≠ 0 then Except.error "Deployment failed." else Except.ok rc

/-! ## Persistent file state for the marker and secret files -/

/-- Contents of the files the run persists: the zero-byte marker file
and the structured passwords YAML, whose yaml.safe_dump / yaml.safe_load
serialization is modelled as storing the mapping itself. -/
inductive FileContent
  | marker
  | yamlMap (m : PwDict)

/-- The durable file system, surviving process restarts. -/
def FS : Type := String → Option FileContent

/-- Marker path (tripleo_deploy.py lines 916-919): os.path.join of the
persistent vstate dir (constants.STANDALONE_EPHEMERAL_STACK_VSTATE,
taken as a parameter) and '_'.join(['update_mark', stack]). -/
def markPath (vstateDir stack : String) : String :=
  joinPath vstateDir ("update_mark_" ++ stack)

/-- Writing the marker: open(self.stack_update_mark, 'wa').close()
(tripleo_deploy.py line 1007). -/
def writeMarkerFile (fs : FS) (vstateDir stack : String) : FS :=
  fun p => if p = markPath vstateDir stack then some .marker else fs p

/-- Removing the marker: os.remove(self.stack_update_mark)
(tripleo_deploy.py line 984). -/
def removeMarkerFile (fs : FS) (vstateDir stack : String) : FS :=
  fun p => if p = markPath vstateDir stack then none else fs p

/-- Reading the marker: os.path.isfile(self.stack_update_mark)
(tripleo_deploy.py line 922). -/
def readMarkerFile (fs : FS) (vstateDir stack : String) : Bool :=
  (fs (markPath vstateDir stack)).isSome

/-- Path of the structured passwords file (tripleo_deploy.py line 229). -/
def pwFilePath (output_dir : String) : String :=
  joinPath output_dir "tripleo-undercloud-passwords.yaml"

/-- Writing the structured passwords file with yaml.safe_dump
(tripleo_deploy.py lines 289-290). -/
def writePwFile (fs : FS) (output_dir : String) (m : PwDict) : FS :=
  fun p => if p = pwFilePath output_dir then some (.yamlMap m) else fs p

/-- Re-reading the structured passwords file with yaml.safe_load
(tripleo_deploy.py lines 270-272); none when the file is absent or not
a YAML mapping. -/
def readPwFile (fs : FS) (output_dir : String) : Option PwDict :=
  match fs (pwFilePath output_dir) with
  | some (.yamlMap m) => some m
  | _ => none

/-- Ordering predicate on traces: no directory deletion happens before
the artifact archive (true also when neither occurs). -/
def noDeleteBeforeArchive : List Ev → Bool
  | [] => true
  | Ev.deleteDirs :: _ => false
  | Ev.archive :: _ => true
  | _ :: t => noDeleteBeforeArchive t

/-- The trace of the unconditional cleanup steps of the finally block:
the archive always happens, the deletion only when --cleanup was given,
and only after the archive. -/
def cleanupTrace (a : Args) (b : BodyOut) : List Ev :=
  if a.cleanup = true then (b.trace ++ [Ev.archive]) ++ [Ev.deleteDirs]
  else b.trace ++ [Ev.archive]

/-- Operating-system stub where abspath is the identity and every path
exists, for concrete instantiation. -/
def cfgExistsTrue : PathCfg :=
  { abspath := fun p => p, pathExists := fun _ => true }

deriving instance DecidableEq for Except

/-! ## Theorems -/

theorem normalize_length (cfg : PathCfg) (user_tht_root tht_root : String) :
    ∀ (fl l : List String),
      normalize_user_templates cfg user_tht_root tht_root fl = Except.ok l →
      l.length = fl.length := by
  intro fl
  induction fl with
  | nil =>
    intro l h
    simp only [normalize_user_templates] at h
    cases h
    rfl
  | cons p rest ih =>
    intro l h
    simp only [normalize_user_templates] at h
    cases h1 : normalizeOne cfg user_tht_root tht_root p with
    | error m => rw [h1] at h; cases h
    | ok r =>
      rw [h1] at h
      cases h2 : normalize_user_templates cfg user_tht_root tht_root rest with
      | error m => rw [h2] at h; cases h
      | ok rs =>
        rw [h2] at h
        cases h
        simp [ih rs h2]

/-- Claim C7 (confirmed): exactly one non-failure terminal status,
CREATE_COMPLETE, is accepted as success by the post-poll check of
Deploy._standalone_deploy; every other terminal status yields a
DeploymentError carrying the server-reported message, and the
acceptance test is the same whatever the chosen stack action. -/
theorem C7_single_terminal_status (action action2 status msg : String) :
    (stackStatusCheck action status msg = Except.ok () ↔ status = "CREATE_COMPLETE") ∧
    (status ≠ "CREATE_COMPLETE" →
      stackStatusCheck action status msg =
        Except.error ("Stack create failed; " ++ msg)) ∧
    stackStatusCheck action status msg = stackStatusCheck action2 status msg := by
  unfold stackStatusCheck
  by_cases h : status = "CREATE_COMPLETE" <;> simp [h]

/-- Witness for C7 at concrete inputs: UPDATE_COMPLETE is rejected with
the message attached, CREATE_COMPLETE is accepted. -/
theorem C7_witness :
    stackStatusCheck "CREATE" "UPDATE_COMPLETE" "some msg" =
      Except.error ("Stack create failed; " ++ "some msg") ∧
    stackStatusCheck "UPDATE" "CREATE_COMPLETE" "m" = Except.ok () := by
  constructor
  · exact (C7_single_terminal_status "CREATE" "x" "UPDATE_COMPLETE" "some msg").2.1
      (by decide)
  · exact (C7_single_terminal_status "UPDATE" "x" "CREATE_COMPLETE" "m").1.mpr rfl

/-- Claim C9 (confirmed): writing then re-reading the marker file
reproduces the boolean mark, and writing then re-reading the structured
passwords file reproduces the key-to-value mapping, for every prior
file-system state (hence independent of process restarts). -/
theorem C9_roundtrip (fs : FS) (vstateDir stack output_dir : String) (m : PwDict) :
    readMarkerFile (writeMarkerFile fs vstateDir stack) vstateDir stack = true ∧
    readMarkerFile (removeMarkerFile fs vstateDir stack) vstateDir stack = false ∧
    readPwFile (writePwFile fs output_dir m) output_dir = some m := by
  refine ⟨?_, ?_, ?_⟩ <;>
    simp [readMarkerFile, writeMarkerFile, removeMarkerFile, readPwFile, writePwFile]

/-- Claim C4 (confirmed): _normalize_user_templates resolves every
override path to exactly one of remapped / passthrough / copied — an
error occurs exactly when the path falls to the copy branch and the
copy destination already exists, in which case a fatal DeploymentError
names the colliding destination; and on success the output list has one
resolved path per input path. -/
theorem C4_normalize_total (cfg : PathCfg) (user_tht_root tht_root env_path : String) :
    (∀ m, normalizeOne cfg user_tht_root tht_root env_path = Except.error m →
      condRemap user_tht_root (cfg.abspath user_tht_root) env_path
          (cfg.abspath env_path) = false ∧
      pyStartsWith (cfg.abspath env_path) tht_root = false ∧
      cfg.pathExists (targetDest tht_root (cfg.abspath env_path)) = true ∧
      m = targetDest tht_root (cfg.abspath env_path) ++
        " already exists, please rename the file to something else") ∧
    (∀ r, normalizeOne cfg user_tht_root tht_root env_path = Except.ok r →
      (condRemap user_tht_root (cfg.abspath user_tht_root) env_path
          (cfg.abspath env_path) = true ∧
        r = Resolution.remapped (pyReplace env_path
          (cfg.abspath user_tht_root ++ "/") (tht_root ++ "/"))) ∨
      (condRemap user_tht_root (cfg.abspath user_tht_root) env_path
          (cfg.abspath env_path) = false ∧
        pyStartsWith (cfg.abspath env_path) tht_root = true ∧
        r = Resolution.passthrough (cfg.abspath env_path)) ∨
      (condRemap user_tht_root (cfg.abspath user_tht_root) env_path
          (cfg.abspath env_path) = false ∧
        pyStartsWith (cfg.abspath env_path) tht_root = false ∧
        cfg.pathExists (targetDest tht_root (cfg.abspath env_path)) = false ∧
        r = Resolution.copied (targetDest tht_root (cfg.abspath env_path)))) ∧
    (∀ fl l, normalize_user_templates cfg user_tht_root tht_root fl = Except.ok l →
      l.length = fl.length) := by
  refine ⟨?_, ?_, normalize_length cfg user_tht_root tht_root⟩
  · intro m h
    unfold normalizeOne at h
    by_cases h1 : condRemap user_tht_root (cfg.abspath user_tht_root) env_path
        (cfg.abspath env_path) = true
    · rw [if_pos h1] at h; cases h
    · rw [if_neg h1] at h
      by_cases h2 : pyStartsWith (cfg.abspath env_path) tht_root = true
      · rw [if_pos h2] at h; cases h
      · rw [if_neg h2] at h
        by_cases h3 : cfg.pathExists (targetDest tht_root (cfg.abspath env_path)) = true
        · rw [if_pos h3] at h
          cases h
          exact ⟨Bool.not_eq_true _ ▸ h1, Bool.not_eq_true _ ▸ h2, h3, rfl⟩
        · rw [if_neg h3] at h; cases h
  · intro r h
    unfold normalizeOne at h
    by_cases h1 : condRemap user_tht_root (cfg.abspath user_tht_root) env_path
        (cfg.abspath env_path) = true
    · rw [if_pos h1] at h
      cases h
      exact Or.inl ⟨h1, rfl⟩
    · rw [if_neg h1] at h
      by_cases h2 : pyStartsWith (cfg.abspath env_path) tht_root = true
      · rw [if_pos h2] at h
        cases h
        exact Or.inr (Or.inl ⟨Bool.not_eq_true _ ▸ h1, h2, rfl⟩)
      · rw [if_neg h2] at h
        by_cases h3 : cfg.pathExists (targetDest tht_root (cfg.abspath env_path)) = true
        · rw [if_pos h3] at h; cases h
        · rw [if_neg h3] at h
          cases h
          exact Or.inr (Or.inr ⟨Bool.not_eq_true _ ▸ h1, Bool.not_eq_true _ ▸ h2,
            Bool.not_eq_true _ ▸ h3, rfl⟩)

/-- Witness for C4 at a concrete input: a path outside both the user
template root and the working tree, whose copy destination already
exists, is rejected with the collision error. -/
theorem C4_witness :
    condRemap "/usr/tht" "/usr/tht" "/other/env.yaml" "/other/env.yaml" = false ∧
    pyStartsWith "/other/env.yaml" "/work/tht" = false ∧
    cfgExistsTrue.pathExists (targetDest "/work/tht" "/other/env.yaml") = true ∧
    "/work/tht/env.yaml already exists, please rename the file to something else" =
      targetDest "/work/tht" "/other/env.yaml" ++
        " already exists, please rename the file to something else" := by
  have h := (C4_normalize_total cfgExistsTrue "/usr/tht" "/work/tht" "/other/env.yaml").1
    "/work/tht/env.yaml already exists, please rename the file to something else"
    (by decide)
  exact ⟨h.1, h.2.1, h.2.2.1, h.2.2.2⟩

theorem translateStep_preserve_rpc (h : Bool) (acc : PwDict) (k v : String)
    (hrab : k = "undercloud_rabbit_password" → h = true)
    (hgen : genericTranslate k ≠ "RpcPassword") :
    translateStep h acc (k, v) "RpcPassword" = acc "RpcPassword" := by
  by_cases h1 : k = "undercloud_db_password"
  · simp [translateStep, dictUpd, h1]
  by_cases h2 : k = "undercloud_rabbit_username"
  · simp [translateStep, dictUpd, h1, h2]
  by_cases h3 : k = "undercloud_rabbit_password"
  · simp [translateStep, dictUpd, h1, h2, h3, hrab h3]
  by_cases h4 : k = "undercloud_rabbit_cookie"
  · simp [translateStep, dictUpd, h1, h2, h3, h4]
  by_cases h5 : k = "undercloud_heat_encryption_key"
  · simp [translateStep, dictUpd, h1, h2, h3, h4, h5]
  by_cases h6 : k = "undercloud_libvirt_tls_password"
  · simp [translateStep, dictUpd, h1, h2, h3, h4, h5, h6]
  by_cases h7 : k = "undercloud_ha_proxy_stats_password"
  · simp [translateStep, dictUpd, h1, h2, h3, h4, h5, h6, h7]
  · simp [translateStep, dictUpd, h1, h2, h3, h4, h5, h6, h7, Ne.symm hgen]

theorem translateStep_rabbit_write (acc : PwDict) (v : String) :
    translateStep false acc ("undercloud_rabbit_password", v) "RpcPassword" = some v := by
  simp [translateStep, dictUpd]

theorem translateStep_rpc_write (h : Bool) (acc : PwDict) (v : String) :
    translateStep h acc ("undercloud_rpc_password", v) "RpcPassword" = some v := by
  have hg : genericTranslate "undercloud_rpc_password" = "RpcPassword" := by decide
  simp [translateStep, dictUpd, hg]

theorem fold_preserve_rpc (h : Bool) (l : List (String × String)) :
    ∀ acc : PwDict,
      (∀ kv ∈ l, (kv.1 = "undercloud_rabbit_password" → h = true) ∧
        genericTranslate kv.1 ≠ "RpcPassword") →
      (l.foldl (translateStep h) acc) "RpcPassword" = acc "RpcPassword" := by
  induction l with
  | nil => intro acc _; rfl
  | cons kv t ih =>
    intro acc hl
    obtain ⟨k, v⟩ := kv
    simp only [List.foldl_cons]
    rw [ih _ (fun x hx => hl x (List.mem_cons_of_mem _ hx))]
    obtain ⟨hr, hg⟩ := hl (k, v) (List.mem_cons_self _ _)
    exact translateStep_preserve_rpc h acc k v hr hg

theorem getKey_some_hasKey (l : List (String × String)) (k r : String)
    (h : getKey l k = some r) : hasKey l k = true := by
  unfold getKey at h
  unfold hasKey
  cases hf : l.find? (fun kv => kv.1 = k) with
  | none => rw [hf] at h; cases h
  | some kv =>
    have hm := List.mem_of_find?_eq_some hf
    have hp := List.find?_some hf
    exact List.any_eq_true.mpr ⟨kv, hm, hp⟩

theorem fold_rpc_present (l : List (String × String)) (r : String) :
    ∀ acc : PwDict,
      (l.map Prod.fst).Nodup →
      (∀ kv ∈ l, genericTranslate kv.1 = "RpcPassword" →
        kv.1 = "undercloud_rpc_password") →
      getKey l "undercloud_rpc_password" = some r →
      (l.foldl (translateStep true) acc) "RpcPassword" = some r := by
  induction l with
  | nil => intro acc _ _ hget; simp [getKey] at hget
  | cons kv t ih =>
    intro acc hnd hsafe hget
    obtain ⟨k, v⟩ := kv
    simp only [List.foldl_cons]
    have hnd' : (t.map Prod.fst).Nodup := by
      rw [List.map_cons, List.nodup_cons] at hnd
      exact hnd.2
    by_cases hk : k = "undercloud_rpc_password"
    · have hv : v = r := by
        subst hk
        simp [getKey, List.find?] at hget
        exact hget
      have hnot : ∀ x ∈ t, x.1 ≠ "undercloud_rpc_password" := by
        intro x hx hx1
        have hmem : x.1 ∈ t.map Prod.fst := List.mem_map_of_mem Prod.fst hx
        rw [hx1, ← hk] at hmem
        rw [List.map_cons, List.nodup_cons] at hnd
        exact hnd.1 hmem
      rw [fold_preserve_rpc true t _ ?_]
      · subst hk hv
        exact translateStep_rpc_write true acc v
      · intro x hx
        refine ⟨fun _ => rfl, fun hg => ?_⟩
        exact hnot x hx (hsafe x (List.mem_cons_of_mem _ hx) hg)
    · have hget' : getKey t "undercloud_rpc_password" = some r := by
        simp [getKey, List.find?, hk] at hget ⊢
        exact hget
      exact ih _ hnd' (fun x hx => hsafe x (List.mem_cons_of_mem _ hx)) hget'

theorem fold_rpc_absent (l : List (String × String)) (v : String) :
    ∀ acc : PwDict,
      (l.map Prod.fst).Nodup →
      (∀ kv ∈ l, genericTranslate kv.1 = "RpcPassword" →
        kv.1 = "undercloud_rpc_password") →
      (∀ kv ∈ l, kv.1 ≠ "undercloud_rpc_password") →
      getKey l "undercloud_rabbit_password" = some v →
      (l.foldl (translateStep false) acc) "RpcPassword" = some v := by
  induction l with
  | nil => intro acc _ _ _ hget; simp [getKey] at hget
  | cons kv t ih =>
    intro acc hnd hsafe hnorpc hget
    obtain ⟨k, w⟩ := kv
    simp only [List.foldl_cons]
    have hnd' : (t.map Prod.fst).Nodup := by
      rw [List.map_cons, List.nodup_cons] at hnd
      exact hnd.2
    by_cases hk : k = "undercloud_rabbit_password"
    · have hw : w = v := by
        subst hk
        simp [getKey, List.find?] at hget
        exact hget
      have hnot : ∀ x ∈ t, x.1 ≠ "undercloud_rabbit_password" := by
        intro x hx hx1
        have hmem : x.1 ∈ t.map Prod.fst := List.mem_map_of_mem Prod.fst hx
        rw [hx1, ← hk] at hmem
        rw [List.map_cons, List.nodup_cons] at hnd
        exact hnd.1 hmem
      rw [fold_preserve_rpc false t _ ?_]
      · subst hk hw
        exact translateStep_rabbit_write acc w
      · intro x hx
        refine ⟨fun hx1 => absurd hx1 (hnot x hx), fun hg => ?_⟩
        exact absurd (hsafe x (List.mem_cons_of_mem _ hx) hg)
          (hnorpc x (List.mem_cons_of_mem _ hx))
    · have hget' : getKey t "undercloud_rabbit_password" = some v := by
        simp [getKey, List.find?, hk] at hget ⊢
        exact hget
      exact ih _ hnd' (fun x hx => hsafe x (List.mem_cons_of_mem _ hx))
        (fun x hx => hnorpc x (List.mem_cons_of_mem _ hx)) hget'

/-- Claim C8 (confirmed): when merging the legacy password file, the
legacy rabbit password never overwrites an undercloud_rpc_password value
present in the same file (the translated RpcPassword key gets the rpc
value), and the rabbit value is propagated to RpcPassword exactly when
undercloud_rpc_password is absent from the legacy file. The hypotheses
say the [auth] section has configparser-unique keys and contains no
exotic key other than undercloud_rpc_password whose generic rename would
collide with RpcPassword. -/
theorem C8_rabbit_rpc_guard (items : List (String × String)) (r v : String)
    (hnd : (items.map Prod.fst).Nodup)
    (hsafe : ∀ kv ∈ items, genericTranslate kv.1 = "RpcPassword" →
      kv.1 = "undercloud_rpc_password") :
    (getKey items "undercloud_rpc_password" = some r →
      translateAuthItems items "RpcPassword" = some r) ∧
    (hasKey items "undercloud_rpc_password" = false →
      getKey items "undercloud_rabbit_password" = some v →
      translateAuthItems items "RpcPassword" = some v) := by
  constructor
  · intro hget
    unfold translateAuthItems
    rw [getKey_some_hasKey items _ r hget]
    exact fold_rpc_present items r _ hnd hsafe hget
  · intro hno hget
    unfold translateAuthItems
    rw [hno]
    have hnorpc : ∀ kv ∈ items, kv.1 ≠ "undercloud_rpc_password" := by
      intro x hx hx1
      have : hasKey items "undercloud_rpc_password" = true :=
        List.any_eq_true.mpr ⟨x, hx, by simp [hx1]⟩
      rw [hno] at this
      cases this
    exact fold_rpc_absent items v _ hnd hsafe hnorpc hget

/-- Witness for C8 at concrete legacy files: with both rabbit and rpc
keys present RpcPassword gets the rpc value; with only the rabbit key it
gets the rabbit value. -/
theorem C8_witness :
    translateAuthItems
      [("undercloud_rabbit_password", "rb"), ("undercloud_rpc_password", "rp")]
      "RpcPassword" = some "rp" ∧
    translateAuthItems [("undercloud_rabbit_password", "rb")] "RpcPassword" =
      some "rb" := by
  constructor
  · exact (C8_rabbit_rpc_guard
      [("undercloud_rabbit_password", "rb"), ("undercloud_rpc_password", "rp")]
      "rp" "x" (by decide) (by decide)).1 (by decide)
  · exact (C8_rabbit_rpc_guard [("undercloud_rabbit_password", "rb")]
      "x" "rb" (by decide) (by decide)).2 (by decide) (by decide)

/-- Claim C1 (corrected, amended theorem): in the merge of
_update_passwords_env, a key set in the translated legacy file always
wins — including over a value already present in the structured store;
a structured value wins only when the key is absent from the legacy
dict; generated candidates fill keys absent from both; caller-supplied
defaults apply only to keys absent from all of the above. -/
theorem C1_amended (stack_env : PwDict) (auth_items : List (String × String))
    (names : List String) (fresh : String → String) (passwords : PwDict)
    (k : String) :
    (∀ v, translateAuthItems auth_items k = some v →
      update_passwords_merge stack_env auth_items names fresh passwords k = some v) ∧
    (translateAuthItems auth_items k = none →
      ∀ v, stack_env k = some v →
        update_passwords_merge stack_env auth_items names fresh passwords k = some v) ∧
    (translateAuthItems auth_items k = none → stack_env k = none →
      names.contains k = true →
      update_passwords_merge stack_env auth_items names fresh passwords k =
        some (fresh k)) ∧
    (translateAuthItems auth_items k = none → stack_env k = none →
      names.contains k = false →
      update_passwords_merge stack_env auth_items names fresh passwords k =
        passwords k) := by
  refine ⟨?_, ?_, ?_, ?_⟩
  · intro v hleg
    simp [update_passwords_merge, pyUpdate, generate_passwords, Option.orElse, hleg]
  · intro hleg v hs
    by_cases hm : k ∈ names <;>
      simp [update_passwords_merge, pyUpdate, generate_passwords, Option.orElse,
        hleg, hs, hm]
  · intro hleg hs hn
    have hm : k ∈ names := by simpa using hn
    simp [update_passwords_merge, pyUpdate, generate_passwords, Option.orElse,
      hleg, hs, hm]
  · intro hleg hs hn
    have hm : k ∉ names := by simpa using hn
    simp [update_passwords_merge, pyUpdate, generate_passwords, Option.orElse,
      hleg, hs, hm]

/-- Witness for C1's amended theorem at concrete inputs: the legacy
value wins at a translated key, and a structured value survives when
the legacy file says nothing about that key. -/
theorem C1_amended_witness :
    update_passwords_merge (fun _ => none) [("undercloud_db_password", "lv")]
      [] (fun _ => "f") (fun _ => none) "MysqlRootPassword" = some "lv" ∧
    update_passwords_merge (fun k => if k = "AdminToken" then some "sv" else none)
      [] [] (fun _ => "f") (fun _ => none) "AdminToken" = some "sv" := by
  constructor
  · exact (C1_amended (fun _ => none) [("undercloud_db_password", "lv")]
      [] (fun _ => "f") (fun _ => none) "MysqlRootPassword").1 "lv" (by decide)
  · exact (C1_amended (fun k => if k = "AdminToken" then some "sv" else none)
      [] [] (fun _ => "f") (fun _ => none) "AdminToken").2.1 rfl "sv" (by decide)

/-- Claim C1 (counterexample): a value already set in the structured
store (parameter_defaults of the existing passwords YAML) is overwritten
by the translated legacy key in the merge — the structured value does
not win outright, refuting the claim as stated. -/
theorem C1_counterexample :
    (fun k => if k = "MysqlRootPassword" then some "structuredpw" else none :
      PwDict) "MysqlRootPassword" = some "structuredpw" ∧
    update_passwords_merge
      (fun k => if k = "MysqlRootPassword" then some "structuredpw" else none)
      [("undercloud_db_password", "legacypw")]
      ["MysqlRootPassword"] (fun _ => "genpw") (fun _ => none)
      "MysqlRootPassword" = some "legacypw" ∧
    ("legacypw" : String) ≠ "structuredpw" := by
  refine ⟨rfl, by decide, by decide⟩

theorem tryBody_rc_output_only (a : Args) (e : RunEnv) (h : a.output_only = true) :
    (tryBody a e).rc = 1 := by
  unfold tryBody
  cases hh : e.heatFail with
  | some m => rfl
  | none =>
    cases hc : stackStatusCheck (stackAction a e) e.pollStatus e.pollMsg with
    | error m => rfl
    | ok u => simp [h]

theorem tryBody_trace_cases (a : Args) (e : RunEnv) :
    (tryBody a e).trace = [] ∨ (tryBody a e).trace = [Ev.upgradePhase] ∨
    (tryBody a e).trace = [Ev.upgradePhase, Ev.deployPhase] ∨
    (tryBody a e).trace = [Ev.deployPhase] := by
  unfold tryBody
  cases hh : e.heatFail with
  | some m => exact Or.inl rfl
  | none =>
    cases hc : stackStatusCheck (stackAction a e) e.pollStatus e.pollMsg with
    | error m => exact Or.inl rfl
    | ok u =>
      by_cases ho : a.output_only = true
      · simp [ho]
      · by_cases hu : a.upgrade = true
        · by_cases hr : e.upgradeRc = 0
          · simp [ho, hu, hr]
          · simp [ho, hu, hr]
        · simp [ho, hu]

theorem tryBody_no_writeMark (a : Args) (e : RunEnv) :
    Ev.writeMark ∉ (tryBody a e).trace := by
  rcases tryBody_trace_cases a e with h | h | h | h <;> rw [h] <;> decide

theorem nDBA_body (l rest : List Ev)
    (h : l = [] ∨ l = [Ev.upgradePhase] ∨ l = [Ev.upgradePhase, Ev.deployPhase] ∨
      l = [Ev.deployPhase]) :
    noDeleteBeforeArchive (l ++ Ev.archive :: rest) = true ∧
    noDeleteBeforeArchive l = true := by
  rcases h with h | h | h | h <;> subst h <;> exact ⟨rfl, rfl⟩

theorem nDBA_cleanup (a : Args) (b : BodyOut) (suffix : List Ev)
    (h : b.trace = [] ∨ b.trace = [Ev.upgradePhase] ∨
      b.trace = [Ev.upgradePhase, Ev.deployPhase] ∨ b.trace = [Ev.deployPhase]) :
    noDeleteBeforeArchive (cleanupTrace a b ++ suffix) = true := by
  unfold cleanupTrace
  by_cases hcl : a.cleanup = true
  · rw [if_pos hcl, List.append_assoc, List.append_assoc]
    exact (nDBA_body _ (Ev.deleteDirs :: suffix) h).1
  · rw [if_neg hcl, List.append_assoc]
    exact (nDBA_body _ suffix h).1

theorem archive_mem_cleanupTrace (a : Args) (b : BodyOut) :
    Ev.archive ∈ cleanupTrace a b := by
  unfold cleanupTrace
  by_cases hcl : a.cleanup = true <;> simp [hcl]

theorem mem_cleanupTrace_of_mem (a : Args) (b : BodyOut) (x : Ev)
    (h : x ∈ b.trace) : x ∈ cleanupTrace a b := by
  unfold cleanupTrace
  by_cases hcl : a.cleanup = true <;> simp [hcl, h]

theorem mem_cleanupTrace_cases (a : Args) (b : BodyOut) (x : Ev)
    (h : x ∈ cleanupTrace a b) :
    x ∈ b.trace ∨ x = Ev.archive ∨ x = Ev.deleteDirs := by
  unfold cleanupTrace at h
  by_cases hcl : a.cleanup = true
  · rw [if_pos hcl] at h
    rcases List.mem_append.mp h with h | h
    · rcases List.mem_append.mp h with h | h
      · exact Or.inl h
      · simp at h
        exact Or.inr (Or.inl h)
    · simp at h
      exact Or.inr (Or.inr h)
  · rw [if_neg hcl] at h
    rcases List.mem_append.mp h with h | h
    · exact Or.inl h
    · simp at h
      exact Or.inr (Or.inl h)

theorem finallyBlock_archiveFail (a : Args) (e : RunEnv) (b : BodyOut) (m : String)
    (har : e.archiveFail = some m) :
    finallyBlock a e b =
      { result := Except.error ("Unable to create artifact tarball, " ++ m),
        markerFinal := e.initMark, trace := b.trace } := by
  unfold finallyBlock
  rw [har]

theorem finallyBlock_fail_rm (a : Args) (e : RunEnv) (b : BodyOut)
    (har : e.archiveFail = none) (h1 : a.output_only = false) (h2 : b.rc ≠ 0)
    (h3 : a.force_stack_update = false) (h4 : e.initMark = true) :
    finallyBlock a e b =
      { result := Except.error "Deployment failed.", markerFinal := false,
        trace := cleanupTrace a b ++ [Ev.removeMark, Ev.failBanner] } := by
  unfold finallyBlock
  rw [har]
  dsimp only
  rw [if_pos ⟨h1, h2⟩, if_pos ⟨h3, h4⟩]
  rfl

theorem finallyBlock_fail_keep (a : Args) (e : RunEnv) (b : BodyOut)
    (har : e.archiveFail = none) (h1 : a.output_only = false) (h2 : b.rc ≠ 0)
    (h34 : ¬(a.force_stack_update = false ∧ e.initMark = true)) :
    finallyBlock a e b =
      { result := Except.error "Deployment failed.", markerFinal := e.initMark,
        trace := cleanupTrace a b ++ [Ev.failBanner] } := by
  unfold finallyBlock
  rw [har]
  dsimp only
  rw [if_pos ⟨h1, h2⟩, if_neg h34]
  rfl

theorem finallyBlock_complete_write (a : Args) (e : RunEnv) (b : BodyOut)
    (har : e.archiveFail = none)
    (h12 : ¬(a.output_only = false ∧ b.rc ≠ 0))
    (h3 : a.output_only = false ∨ a.force_stack_update = true) :
    finallyBlock a e b =
      { result := Except.ok b.rc, markerFinal := true,
        trace := cleanupTrace a b ++ [Ev.successBanner, Ev.writeMark] } := by
  unfold finallyBlock
  rw [har]
  dsimp only
  rw [if_neg h12, if_pos h3]
  rfl

theorem finallyBlock_complete_keep (a : Args) (e : RunEnv) (b : BodyOut)
    (har : e.archiveFail = none)
    (h12 : ¬(a.output_only = false ∧ b.rc ≠ 0))
    (h3 : ¬(a.output_only = false ∨ a.force_stack_update = true)) :
    finallyBlock a e b =
      { result := Except.ok b.rc, markerFinal := e.initMark,
        trace := cleanupTrace a b ++ [Ev.successBanner] } := by
  unfold finallyBlock
  rw [har]
  dsimp only
  rw [if_neg h12, if_neg h3]
  rfl

/-- Claim C3 (corrected, amended theorem): on every exit of the run, no
working-directory deletion happens before the artifact archive; but an
internal error while archiving is not swallowed — it is re-raised as a
DeploymentError naming the tarball failure, replacing whatever error
caused the run to fail; only when archiving succeeds is the archive
event guaranteed on the trace. -/
theorem C3_amended (a : Args) (e : RunEnv) :
    noDeleteBeforeArchive (runStandaloneDeploy a e).trace = true ∧
    (∀ m, e.archiveFail = some m →
      (runStandaloneDeploy a e).result =
        Except.error ("Unable to create artifact tarball, " ++ m)) ∧
    (e.archiveFail = none → Ev.archive ∈ (runStandaloneDeploy a e).trace) := by
  have htc := tryBody_trace_cases a e
  refine ⟨?_, ?_, ?_⟩
  · unfold runStandaloneDeploy
    cases har : e.archiveFail with
    | some m =>
      rw [finallyBlock_archiveFail a e _ m har]
      exact (nDBA_body _ [] htc).2
    | none =>
      by_cases h1 : a.output_only = false ∧ (tryBody a e).rc ≠ 0
      · by_cases h2 : a.force_stack_update = false ∧ e.initMark = true
        · rw [finallyBlock_fail_rm a e _ har h1.1 h1.2 h2.1 h2.2]
          exact nDBA_cleanup a _ _ htc
        · rw [finallyBlock_fail_keep a e _ har h1.1 h1.2 h2]
          exact nDBA_cleanup a _ _ htc
      · by_cases h3 : a.output_only = false ∨ a.force_stack_update = true
        · rw [finallyBlock_complete_write a e _ har h1 h3]
          exact nDBA_cleanup a _ _ htc
        · rw [finallyBlock_complete_keep a e _ har h1 h3]
          exact nDBA_cleanup a _ _ htc
  · intro m har
    unfold runStandaloneDeploy
    rw [finallyBlock_archiveFail a e _ m har]
  · intro har
    unfold runStandaloneDeploy
    by_cases h1 : a.output_only = false ∧ (tryBody a e).rc ≠ 0
    · by_cases h2 : a.force_stack_update = false ∧ e.initMark = true
      · rw [finallyBlock_fail_rm a e _ har h1.1 h1.2 h2.1 h2.2]
        exact List.mem_append_left _ (archive_mem_cleanupTrace a _)
      · rw [finallyBlock_fail_keep a e _ har h1.1 h1.2 h2]
        exact List.mem_append_left _ (archive_mem_cleanupTrace a _)
    · by_cases h3 : a.output_only = false ∨ a.force_stack_update = true
      · rw [finallyBlock_complete_write a e _ har h1 h3]
        exact List.mem_append_left _ (archive_mem_cleanupTrace a _)
      · rw [finallyBlock_complete_keep a e _ har h1 h3]
        exact List.mem_append_left _ (archive_mem_cleanupTrace a _)

/-- Claim C3 (counterexample): with an in-flight failure from the heat
stage and a failing archive step, the error escaping the run is the
archive error, not the original failure — cleanup masks it, refuting
the claim that internal archiving errors are logged and swallowed. -/
theorem C3_counterexample :
    (tryBody ⟨false, false, false, true⟩
      ⟨false, some "original failure", "x", "", 0, 0, some "tar broke"⟩).exc =
      some "original failure" ∧
    (runStandaloneDeploy ⟨false, false, false, true⟩
      ⟨false, some "original failure", "x", "", 0, 0, some "tar broke"⟩).result =
      Except.error ("Unable to create artifact tarball, " ++ "tar broke") := by
  exact ⟨rfl, rfl⟩

/-- Witness for C3's amended theorem at concrete inputs: a failing
archive replaces the in-flight error, and a successful archive appears
on the trace. -/
theorem C3_amended_witness :
    (runStandaloneDeploy ⟨false, false, false, false⟩
      ⟨false, some "boom", "x", "", 0, 0, some "tar broke"⟩).result =
      Except.error ("Unable to create artifact tarball, " ++ "tar broke") ∧
    Ev.archive ∈ (runStandaloneDeploy ⟨false, false, false, true⟩
      ⟨false, none, "CREATE_COMPLETE", "", 0, 0, none⟩).trace := by
  constructor
  · exact (C3_amended _ _).2.1 "tar broke" rfl
  · exact (C3_amended _ _).2.2 rfl

/-- Claim C2 (corrected, amended theorem): a run returning 0 ends with
the marker present; a failed non-output-only run without force (and a
working archive step) ends with the marker absent; force makes the
chosen stack action UPDATE regardless of the prior mark; in a
non-output-only run the marker is written exactly when the run returns
0 — but in output-only mode the completion branch always runs, so force
causes the marker to be written regardless of outcome, and without
force the marker is left untouched. -/
theorem C2_amended (a : Args) (e : RunEnv) :
    ((runStandaloneDeploy a e).result = Except.ok 0 →
      (runStandaloneDeploy a e).markerFinal = true) ∧
    (e.archiveFail = none → a.output_only = false → a.force_stack_update = false →
      ∀ m, (runStandaloneDeploy a e).result = Except.error m →
        (runStandaloneDeploy a e).markerFinal = false) ∧
    (a.force_stack_update = true → stackAction a e = "UPDATE") ∧
    (a.output_only = false →
      (Ev.writeMark ∈ (runStandaloneDeploy a e).trace ↔
        (runStandaloneDeploy a e).result = Except.ok 0)) ∧
    (a.output_only = true → e.archiveFail = none →
      (Ev.writeMark ∈ (runStandaloneDeploy a e).trace ↔
        a.force_stack_update = true)) := by
  have hnw := tryBody_no_writeMark a e
  refine ⟨?_, ?_, ?_, ?_, ?_⟩
  · intro hres
    unfold runStandaloneDeploy at hres ⊢
    cases har : e.archiveFail with
    | some m =>
      rw [finallyBlock_archiveFail a e _ m har] at hres
      simp at hres
    | none =>
      by_cases h1 : a.output_only = false ∧ (tryBody a e).rc ≠ 0
      · by_cases h2 : a.force_stack_update = false ∧ e.initMark = true
        · rw [finallyBlock_fail_rm a e _ har h1.1 h1.2 h2.1 h2.2] at hres
          simp at hres
        · rw [finallyBlock_fail_keep a e _ har h1.1 h1.2 h2] at hres
          simp at hres
      · by_cases h3 : a.output_only = false ∨ a.force_stack_update = true
        · rw [finallyBlock_complete_write a e _ har h1 h3]
        · exfalso
          rw [finallyBlock_complete_keep a e _ har h1 h3] at hres
          simp at hres
          have hoo : a.output_only = true := by
            cases ho : a.output_only
            · exact absurd (Or.inl ho) h3
            · rfl
          have hone := tryBody_rc_output_only a e hoo
          omega
  · intro har hoo hf m hres
    unfold runStandaloneDeploy at hres ⊢
    by_cases h1 : a.output_only = false ∧ (tryBody a e).rc ≠ 0
    · by_cases h4 : e.initMark = true
      · rw [finallyBlock_fail_rm a e _ har h1.1 h1.2 hf h4]
      · rw [finallyBlock_fail_keep a e _ har h1.1 h1.2 (fun hc => h4 hc.2)]
        have h4' : e.initMark = false := by
          revert h4
          cases e.initMark <;> simp
        exact h4'
    · by_cases h3 : a.output_only = false ∨ a.force_stack_update = true
      · rw [finallyBlock_complete_write a e _ har h1 h3] at hres
        simp at hres
      · rw [finallyBlock_complete_keep a e _ har h1 h3] at hres
        simp at hres
  · intro hf
    unfold stackAction
    simp [hf]
  · intro hoo
    unfold runStandaloneDeploy
    cases har : e.archiveFail with
    | some m =>
      rw [finallyBlock_archiveFail a e _ m har]
      constructor
      · intro hx
        exact absurd hx hnw
      · intro hx
        simp at hx
    | none =>
      by_cases h1 : a.output_only = false ∧ (tryBody a e).rc ≠ 0
      · by_cases h2 : a.force_stack_update = false ∧ e.initMark = true
        · rw [finallyBlock_fail_rm a e _ har h1.1 h1.2 h2.1 h2.2]
          constructor
          · intro hx
            exfalso
            rcases List.mem_append.mp hx with hx | hx
            · rcases mem_cleanupTrace_cases a _ _ hx with h | h | h
              · exact hnw h
              · simp at h
              · simp at h
            · simp at hx
          · intro hx
            simp at hx
        · rw [finallyBlock_fail_keep a e _ har h1.1 h1.2 h2]
          constructor
          · intro hx
            exfalso
            rcases List.mem_append.mp hx with hx | hx
            · rcases mem_cleanupTrace_cases a _ _ hx with h | h | h
              · exact hnw h
              · simp at h
              · simp at h
            · simp at hx
          · intro hx
            simp at hx
      · have hrc : (tryBody a e).rc = 0 := by
          by_contra hne
          exact h1 ⟨hoo, hne⟩
        rw [finallyBlock_complete_write a e _ har h1 (Or.inl hoo)]
        constructor
        · intro _
          simp [hrc]
        · intro _
          simp
  · intro hoo har
    unfold runStandaloneDeploy
    have h1 : ¬(a.output_only = false ∧ (tryBody a e).rc ≠ 0) := by
      intro hc
      rw [hoo] at hc
      cases hc.1
    by_cases hf : a.force_stack_update = true
    · rw [finallyBlock_complete_write a e _ har h1 (Or.inr hf)]
      constructor
      · intro _
        exact hf
      · intro _
        simp
    · have h3 : ¬(a.output_only = false ∨ a.force_stack_update = true) := by
        intro hc
        rcases hc with hc | hc
        · rw [hoo] at hc
          cases hc
        · exact hf hc
      rw [finallyBlock_complete_keep a e _ har h1 h3]
      constructor
      · intro hx
        exfalso
        rcases List.mem_append.mp hx with hx | hx
        · rcases mem_cleanupTrace_cases a _ _ hx with h | h | h
          · exact hnw h
          · simp at h
          · simp at h
        · simp at hx
      · intro hc
        exact absurd hc hf

/-- Claim C2 (counterexample): with --output-only and
--force-stack-update, a run whose heat stage raised an exception — a
failed run, take_action raises DeploymentError — still writes the
marker: the force flag by itself does write the marker in output-only
mode, refuting "only a successful completion writes it". -/
theorem C2_counterexample :
    takeAction ⟨true, true, false, false⟩
      ⟨false, some "boom", "x", "m", 0, 0, none⟩ =
      Except.error "Deployment failed." ∧
    Ev.writeMark ∈ (runStandaloneDeploy ⟨true, true, false, false⟩
      ⟨false, some "boom", "x", "m", 0, 0, none⟩).trace ∧
    (runStandaloneDeploy ⟨true, true, false, false⟩
      ⟨false, some "boom", "x", "m", 0, 0, none⟩).markerFinal = true := by
  refine ⟨rfl, by decide, rfl⟩

/-- Witness for C2's amended theorem at concrete inputs: a successful
run ends marked, force yields action UPDATE, and a failed
non-output-only unforced run ends unmarked. -/
theorem C2_amended_witness :
    (runStandaloneDeploy ⟨false, false, false, true⟩
      ⟨false, none, "CREATE_COMPLETE", "", 0, 0, none⟩).markerFinal = true ∧
    stackAction ⟨true, false, false, false⟩
      ⟨false, none, "x", "", 0, 0, none⟩ = "UPDATE" ∧
    (runStandaloneDeploy ⟨false, false, false, false⟩
      ⟨true, some "boom", "x", "", 0, 0, none⟩).markerFinal = false := by
  refine ⟨?_, ?_, ?_⟩
  · exact (C2_amended _ _).1 (by decide)
  · exact (C2_amended _ _).2.2.1 rfl
  · exact (C2_amended _ _).2.1 rfl rfl rfl "Deployment failed." (by decide)

/-- Claim C6 (confirmed): in a run with the upgrade flag and not
output-only, where the stages before ansible succeed and the upgrade
phase exits nonzero, the deploy phase is never invoked, the run fails
with DeploymentError, and the artifact archive is still produced. -/
theorem C6_upgrade_gates_deploy (a : Args) (e : RunEnv)
    (hup : a.upgrade = true) (hoo : a.output_only = false)
    (hheat : e.heatFail = none) (hpoll : e.pollStatus = "CREATE_COMPLETE")
    (hrc : e.upgradeRc ≠ 0) (harch : e.archiveFail = none) :
    Ev.upgradePhase ∈ (runStandaloneDeploy a e).trace ∧
    Ev.deployPhase ∉ (runStandaloneDeploy a e).trace ∧
    (runStandaloneDeploy a e).result = Except.error "Deployment failed." ∧
    Ev.archive ∈ (runStandaloneDeploy a e).trace := by
  have hb : tryBody a e =
      { rc := e.upgradeRc, exc := some "Upgrade failed",
        trace := [Ev.upgradePhase] } := by
    unfold tryBody
    rw [hheat]
    have hok : stackStatusCheck (stackAction a e) e.pollStatus e.pollMsg =
        Except.ok () := by
      unfold stackStatusCheck
      rw [hpoll]
      simp
    rw [hok]
    simp [hoo, hup, hrc]
  unfold runStandaloneDeploy
  rw [hb]
  have hfin : ∀ (tail : List Ev),
      Ev.upgradePhase ∈ cleanupTrace a
        { rc := e.upgradeRc, exc := some "Upgrade failed",
          trace := [Ev.upgradePhase] } ++ tail ∧
      (Ev.deployPhase ∈ cleanupTrace a
        { rc := e.upgradeRc, exc := some "Upgrade failed",
          trace := [Ev.upgradePhase] } ++ tail →
        Ev.deployPhase ∈ tail) ∧
      Ev.archive ∈ cleanupTrace a
        { rc := e.upgradeRc, exc := some "Upgrade failed",
          trace := [Ev.upgradePhase] } ++ tail := by
    intro tail
    refine ⟨?_, ?_, ?_⟩
    · exact List.mem_append_left _
        (mem_cleanupTrace_of_mem _ _ _ (by simp))
    · intro hx
      rcases List.mem_append.mp hx with hx | hx
      · rcases mem_cleanupTrace_cases _ _ _ hx with h | h | h
        · simp at h
        · simp at h
        · simp at h
      · exact hx
    · exact List.mem_append_left _ (archive_mem_cleanupTrace _ _)
  by_cases h2 : a.force_stack_update = false ∧ e.initMark = true
  · rw [finallyBlock_fail_rm a e _ harch hoo hrc h2.1 h2.2]
    refine ⟨(hfin _).1, ?_, rfl, (hfin _).2.2⟩
    intro hx
    have := (hfin _).2.1 hx
    simp at this
  · rw [finallyBlock_fail_keep a e _ harch hoo hrc h2]
    refine ⟨(hfin _).1, ?_, rfl, (hfin _).2.2⟩
    intro hx
    have := (hfin _).2.1 hx
    simp at this

/-- Witness for C6 at a concrete input: upgrade requested, upgrade
phase exits 2, all earlier stages fine. -/
theorem C6_witness :
    Ev.upgradePhase ∈ (runStandaloneDeploy ⟨false, false, true, true⟩
      ⟨false, none, "CREATE_COMPLETE", "", 2, 0, none⟩).trace ∧
    Ev.deployPhase ∉ (runStandaloneDeploy ⟨false, false, true, true⟩
      ⟨false, none, "CREATE_COMPLETE", "", 2, 0, none⟩).trace ∧
    (runStandaloneDeploy ⟨false, false, true, true⟩
      ⟨false, none, "CREATE_COMPLETE", "", 2, 0, none⟩).result =
      Except.error "Deployment failed." ∧
    Ev.archive ∈ (runStandaloneDeploy ⟨false, false, true, true⟩
      ⟨false, none, "CREATE_COMPLETE", "", 2, 0, none⟩).trace := by
  exact C6_upgrade_gates_deploy _ _ rfl rfl rfl rfl (by decide) rfl

/-- Claim C10 (confirmed): with --output-only, even when every stage
succeeds, _standalone_deploy returns 1 (rc is initialized to 1 and only
the skipped ansible phases assign it), so take_action raises
DeploymentError('Deployment failed.'); yet the completion branch still
runs: the success banner is logged, the marker is written when force is
set and left untouched otherwise. -/
theorem C10_output_only_returns_one (a : Args) (e : RunEnv)
    (hoo : a.output_only = true) (hheat : e.heatFail = none)
    (hpoll : e.pollStatus = "CREATE_COMPLETE") (harch : e.archiveFail = none) :
    (runStandaloneDeploy a e).result = Except.ok 1 ∧
    takeAction a e = Except.error "Deployment failed." ∧
    Ev.successBanner ∈ (runStandaloneDeploy a e).trace ∧
    (a.force_stack_update = true →
      Ev.writeMark ∈ (runStandaloneDeploy a e).trace) ∧
    (a.force_stack_update = false →
      (runStandaloneDeploy a e).markerFinal = e.initMark) := by
  have hb : tryBody a e = { rc := 1, exc := none, trace := [] } := by
    unfold tryBody
    rw [hheat]
    have hok : stackStatusCheck (stackAction a e) e.pollStatus e.pollMsg =
        Except.ok () := by
      unfold stackStatusCheck
      rw [hpoll]
      simp
    rw [hok]
    simp [hoo]
  have h1 : ¬(a.output_only = false ∧
      ({ rc := 1, exc := none, trace := [] } : BodyOut).rc ≠ 0) := by
    intro hc
    rw [hoo] at hc
    cases hc.1
  by_cases hf : a.force_stack_update = true
  · have hfs : runStandaloneDeploy a e =
        { result := Except.ok 1, markerFinal := true,
          trace := cleanupTrace a { rc := 1, exc := none, trace := [] } ++
            [Ev.successBanner, Ev.writeMark] } := by
      unfold runStandaloneDeploy
      rw [hb]
      exact finallyBlock_complete_write a e _ harch h1 (Or.inr hf)
    refine ⟨?_, ?_, ?_, ?_, ?_⟩
    · rw [hfs]
    · unfold takeAction
      rw [hfs]
      simp
    · rw [hfs]
      simp
    · intro _
      rw [hfs]
      simp
    · intro hff
      rw [hff] at hf
      cases hf
  · have h3 : ¬(a.output_only = false ∨ a.force_stack_update = true) := by
      intro hc
      rcases hc with hc | hc
      · rw [hoo] at hc
        cases hc
      · exact hf hc
    have hfs : runStandaloneDeploy a e =
        { result := Except.ok 1, markerFinal := e.initMark,
          trace := cleanupTrace a { rc := 1, exc := none, trace := [] } ++
            [Ev.successBanner] } := by
      unfold runStandaloneDeploy
      rw [hb]
      exact finallyBlock_complete_keep a e _ harch h1 h3
    refine ⟨?_, ?_, ?_, ?_, ?_⟩
    · rw [hfs]
    · unfold takeAction
      rw [hfs]
      simp
    · rw [hfs]
      simp
    · intro hff
      exact absurd hff hf
    · intro _
      rw [hfs]

/-- Witness for C10 at a concrete input: an output-only run with every
stage succeeding returns 1 and take_action raises; with a prior marker
and no force, the marker is left in place. -/
theorem C10_witness :
    (runStandaloneDeploy ⟨false, true, false, false⟩
      ⟨true, none, "CREATE_COMPLETE", "", 0, 0, none⟩).result = Except.ok 1 ∧
    takeAction ⟨false, true, false, false⟩
      ⟨true, none, "CREATE_COMPLETE", "", 0, 0, none⟩ =
      Except.error "Deployment failed." ∧
    (runStandaloneDeploy ⟨false, true, false, false⟩
      ⟨true, none, "CREATE_COMPLETE", "", 0, 0, none⟩).markerFinal = true := by
  have h := C10_output_only_returns_one ⟨false, true, false, false⟩
    ⟨true, none, "CREATE_COMPLETE", "", 0, 0, none⟩ rfl rfl rfl rfl
  exact ⟨h.1, h.2.1, h.2.2.2.2 rfl⟩

/-- Claim C5 (confirmed): the environment list returned by
_setup_heat_environments is exactly the system-generated entries (plan
environments, password file, the two deployed-server environments, the
hosts/portmap file, the optional hieradata bridge, the stack-vstate
drop-in) followed by the caller's normalized environment files — so
every system-generated entry precedes every caller-supplied one, and
caller files take precedence in the engine's later-overrides-earlier
merge. -/
theorem C5_system_before_user (cfg : PathCfg)
    (templates tht_render output_dir : String)
    (environment_files : List String) (plan_envs : List String)
    (hieradata_override : Option String) (hiera_processed stack : String)
    (user_envs : List String)
    (hn : normalize_user_templates cfg templates tht_render environment_files =
      Except.ok user_envs) :
    setup_heat_environments cfg templates tht_render output_dir environment_files
      0 plan_envs hieradata_override hiera_processed stack =
      Except.ok (systemEnvironments tht_render output_dir plan_envs
        hieradata_override hiera_processed stack ++ user_envs) ∧
    ∀ l, setup_heat_environments cfg templates tht_render output_dir
        environment_files 0 plan_envs hieradata_override hiera_processed stack =
        Except.ok l →
      l.take (systemEnvironments tht_render output_dir plan_envs
        hieradata_override hiera_processed stack).length =
        systemEnvironments tht_render output_dir plan_envs hieradata_override
          hiera_processed stack ∧
      l.drop (systemEnvironments tht_render output_dir plan_envs
        hieradata_override hiera_processed stack).length = user_envs := by
  have hmain : setup_heat_environments cfg templates tht_render output_dir
      environment_files 0 plan_envs hieradata_override hiera_processed stack =
      Except.ok (systemEnvironments tht_render output_dir plan_envs
        hieradata_override hiera_processed stack ++ user_envs) := by
    unfold setup_heat_environments
    rw [hn]
    simp
  refine ⟨hmain, ?_⟩
  intro l hl
  rw [hmain] at hl
  cases hl
  exact ⟨List.take_left _ _, List.drop_left _ _⟩

/-- Witness for C5 at a concrete input: one caller environment file
under the user template root is normalized into the working tree and
lands after every system-generated entry. -/
theorem C5_witness :
    setup_heat_environments cfgExistsTrue "/usr/tht" "/work/tht" "/out"
      ["/usr/tht/env.yaml"] 0 ["/work/tht/planenv.yaml"] none
      "/work/tht/hiera.yaml" "standalone" =
      Except.ok (systemEnvironments "/work/tht" "/out" ["/work/tht/planenv.yaml"]
        none "/work/tht/hiera.yaml" "standalone" ++ ["/work/tht/env.yaml"]) := by
  exact (C5_system_before_user cfgExistsTrue "/usr/tht" "/work/tht" "/out"
    ["/usr/tht/env.yaml"] ["/work/tht/planenv.yaml"] none "/work/tht/hiera.yaml"
    "standalone" ["/work/tht/env.yaml"] (by decide)).1

end TripleoDeploy
